import Mathlib

/-!
Shallow embedding of the `core/trace` package (files `event.py`, `writer.py`,
`tracer.py`) of the lynx-family/habitat repository, together with theorems
settling the frozen claims about it.

Conventions of the embedding:
* Python argument values are modelled by the inductive `Value`; a `pathlib.Path`
  is `Value.vPath`, any other object that `json.dumps` cannot serialize is
  `Value.vOpaque typeName` (carrying the Python type name that `json.dumps`
  would report in its `TypeError`).
* Wall-clock reads (`time.time() * 1_000_000`), the current thread ident
  (`threading.current_thread().ident or 0`) and the current asyncio task
  (`asyncio.current_task()`) are ambient inputs the code reads; they are
  passed explicitly in an `Ambient` record.
* `int(hashlib.md5(s.encode()).hexdigest()[:8], 16)` is an arbitrary but fixed
  function `String → Nat`, passed as the parameter `hh` (its value range does
  not matter: the code reduces it `% 0x10000000`).
* The output file is a list of `FileTok` chunks, one per `self._file.write`
  call of `writer.py`; `fileString` recovers the textual content.
* Fallible operations return their error (`RuntimeError` of `write_event`,
  `TypeError` of `json.dumps`) as an `Option WriteError` component next to the
  post-state, because in Python the mutations performed before the raise
  persist.
-/

set_option autoImplicit false

namespace HabitatTrace

/-- `EventType` from `event.py`: the closed enum of Chrome tracing phases. -/
inductive EventType where
  | durationBegin | durationEnd | complete | instant | counter
  | asyncStart | asyncInstant | asyncEnd
  | flowStart | flowStep | flowEnd | metadata
  deriving DecidableEq, Repr

/-- The one-character phase code (`EventType.value` in `event.py`). -/
def EventType.phase : EventType → String
  | .durationBegin => "B"
  | .durationEnd => "E"
  | .complete => "X"
  | .instant => "i"
  | .counter => "C"
  | .asyncStart => "b"
  | .asyncInstant => "n"
  | .asyncEnd => "e"
  | .flowStart => "s"
  | .flowStep => "t"
  | .flowEnd => "f"
  | .metadata => "M"

/-- Python values that can appear in an event's `args` dictionary. -/
inductive Value where
  | vStr (s : String)
  | vInt (n : Int)
  | vBool (b : Bool)
  | vNull
  | vPath (p : String)
  | vDict (entries : List (String × Value))
  | vList (items : List Value)
  | vOpaque (typeName : String)

/-- `isinstance(value, Path)` test. -/
def Value.isPath : Value → Bool
  | .vPath _ => true
  | _ => false

/-- The body of the list comprehension in `_serialize_args`:
`str(item) if isinstance(item, Path) else item`. -/
def sanitizeItem : Value → Value
  | .vPath p => .vStr p
  | v => v

/-- `_serialize_args` from `event.py`: `Path` values become strings, nested
dicts are recursed into, list/tuple values get the per-item `Path` → `str`
conversion only, everything else is kept as is. -/
def serialize_args : List (String × Value) → List (String × Value)
  | [] => []
  | (k, Value.vPath p) :: rest => (k, Value.vStr p) :: serialize_args rest
  | (k, Value.vDict d) :: rest =>
      (k, Value.vDict (serialize_args d)) :: serialize_args rest
  | (k, Value.vList items) :: rest =>
      (k, Value.vList (items.map sanitizeItem)) :: serialize_args rest
  | (k, v) :: rest => (k, v) :: serialize_args rest

/-- JSON string escaping of one character (quote and backslash; enough for the
strings that occur here). -/
def escapeChar (c : Char) : String :=
  if c = '"' then "\\\"" else if c = '\\' then "\\\\" else String.singleton c

/-- Render a string as a JSON string literal. -/
def jsonQuote (s : String) : String :=
  "\"" ++ String.join (s.toList.map escapeChar) ++ "\""

mutual
/-- `json.dumps` with `separators=(",", ":")` on one value. A value it cannot
serialize produces `TypeError("Object of type T is not JSON serializable")`;
the error here carries that type name `T` — and nothing else. -/
def renderValue : Value → Except String String
  | .vStr s => .ok (jsonQuote s)
  | .vInt n => .ok (toString n)
  | .vBool b => .ok (if b then "true" else "false")
  | .vNull => .ok "null"
  | .vPath _ => .error "PosixPath"
  | .vOpaque typeName => .error typeName
  | .vDict entries =>
      match renderEntries entries with
      | .error e => .error e
      | .ok parts => .ok ("\x7b" ++ String.intercalate "," parts ++ "\x7d")
  | .vList items =>
      match renderItems items with
      | .error e => .error e
      | .ok parts => .ok ("[" ++ String.intercalate "," parts ++ "]")

/-- Render the entries of a JSON object, failing at the first bad value. -/
def renderEntries : List (String × Value) → Except String (List String)
  | [] => .ok []
  | (k, v) :: rest =>
      match renderValue v with
      | .error e => .error e
      | .ok s =>
          match renderEntries rest with
          | .error e => .error e
          | .ok restS => .ok ((jsonQuote k ++ ":" ++ s) :: restS)

/-- Render the items of a JSON array, failing at the first bad value. -/
def renderItems : List Value → Except String (List String)
  | [] => .ok []
  | v :: rest =>
      match renderValue v with
      | .error e => .error e
      | .ok s =>
          match renderItems rest with
          | .error e => .error e
          | .ok restS => .ok (s :: restS)
end

/-- Ambient process state that `event.py` reads when a `TraceEvent` is built:
the wall clock in microseconds, `threading.current_thread().ident or 0`, and
`asyncio.current_task()` (as the `id()` of the task, when one is running). -/
structure Ambient where
  nowUs : Int
  threadIdent : Nat
  currentTask : Option Nat
  deriving DecidableEq, Repr

/-- The synthetic lane for the current coroutine, from
`_get_coroutine_thread_id` in `event.py`:
`0x10000000 + (int(md5(str(id(task)))[:8], 16) % 0x10000000)`. -/
def coroutineLane (hh : String → Nat) (taskId : Nat) : Nat :=
  0x10000000 + (hh (toString taskId) % 0x10000000)

/-- The synthetic lane for an async correlation id, from
`Tracer._get_async_thread_id` in `tracer.py`:
`0x20000000 + (int(md5(async_id)[:8], 16) % 0x10000000)`. -/
def asyncLane (hh : String → Nat) (asyncId : String) : Nat :=
  0x20000000 + (hh asyncId % 0x10000000)

/-- `_get_coroutine_thread_id`: the coroutine lane when a task is running,
otherwise the real thread ident. -/
def get_coroutine_thread_id (hh : String → Nat) (amb : Ambient) : Nat :=
  match amb.currentTask with
  | some taskId => coroutineLane hh taskId
  | none => amb.threadIdent

/-- `TraceEvent` from `event.py` (fields as stored by `__init__`). -/
structure TraceEvent where
  name : String
  eventType : EventType
  timestamp : Int
  duration : Option Int
  processId : Nat
  threadId : Nat
  category : String
  args : List (String × Value)
  asyncId : Option String

/-- `TraceEvent.__init__`: every `None` argument is replaced by its ambient
default (now, current thread ident, coroutine thread id); `args or {}` turns a
missing dictionary into the empty one. Construction performs no serialization
and cannot fail. -/
def mkEvent (hh : String → Nat) (amb : Ambient) (name : String)
    (eventType : EventType) (timestamp : Option Int) (duration : Option Int)
    (processId : Option Nat) (threadId : Option Nat) (category : String)
    (args : List (String × Value)) (asyncId : Option String) : TraceEvent :=
  { name := name
    eventType := eventType
    timestamp := timestamp.getD amb.nowUs
    duration := duration
    processId := processId.getD amb.threadIdent
    threadId := threadId.getD (get_coroutine_thread_id hh amb)
    category := category
    args := args
    asyncId := asyncId }

/-- `TraceEvent.to_dict`: the wire dictionary, in insertion order; `dur`,
`args` (only when the stored `args` dict is non-empty, sanitized by
`_serialize_args`) and `id` are conditional. -/
def TraceEvent.to_dict (e : TraceEvent) : List (String × Value) :=
  [("name", .vStr e.name), ("ph", .vStr e.eventType.phase),
   ("ts", .vInt e.timestamp), ("pid", .vInt (e.processId : Int)),
   ("tid", .vInt (e.threadId : Int)), ("cat", .vStr e.category)]
  ++ (match e.duration with | some d => [("dur", Value.vInt d)] | none => [])
  ++ (if e.args.isEmpty then [] else [("args", Value.vDict (serialize_args e.args))])
  ++ (match e.asyncId with | some i => [("id", Value.vStr i)] | none => [])

/-- `json.dumps(event.to_dict(), separators=(",", ":"))`. -/
def renderEventJson (e : TraceEvent) : Except String String :=
  renderValue (.vDict e.to_dict)

/-- One chunk of the output file, one per `self._file.write` call in
`writer.py`. -/
inductive FileTok where
  | header
  | sep
  | eventChunk (j : String)
  | footer
  deriving DecidableEq, Repr

/-- The literal text of a chunk. -/
def FileTok.text : FileTok → String
  | .header => "[\n"
  | .sep => ",\n"
  | .eventChunk j => "  " ++ j
  | .footer => "\n]\n"

/-- The textual content of the output file. -/
def fileString (toks : List FileTok) : String :=
  String.join (toks.map FileTok.text)

/-- The errors a write can raise: the `RuntimeError` of an unopened writer,
or the `TypeError` of `json.dumps` (carrying the offending type name). -/
inductive WriteError where
  | notOpen
  | serialization (typeName : String)
  deriving DecidableEq, Repr

/-- `ChromeTraceWriter` state: `_file is not None`, the `_first_event` flag,
and the file content written so far. -/
structure ChromeTraceWriter where
  autoFlush : Bool
  isOpen : Bool
  firstEvent : Bool
  file : List FileTok
  deriving DecidableEq, Repr

namespace ChromeTraceWriter

/-- `ChromeTraceWriter.__init__`: closed, `_first_event = True`, no file
content yet. -/
def mk' (autoFlush : Bool) : ChromeTraceWriter :=
  { autoFlush := autoFlush, isOpen := false, firstEvent := true, file := [] }

/-- `ChromeTraceWriter.open`: when `_file is None`, `open(filepath, "w")`
truncates the sink, the array-opening token is written and the first-event
flag is set; otherwise nothing happens. -/
def openW (w : ChromeTraceWriter) : ChromeTraceWriter :=
  if w.isOpen then w
  else { w with isOpen := true, firstEvent := true, file := [.header] }

/-- `ChromeTraceWriter.close`: when open, the array-closing token is written
and the file handle released; otherwise nothing happens. -/
def close (w : ChromeTraceWriter) : ChromeTraceWriter :=
  if w.isOpen then { w with isOpen := false, file := w.file ++ [.footer] }
  else w

/-- `ChromeTraceWriter.write_event`. Returns the post-state together with the
error, if any, because the mutations made before a raise persist: the comma
separator (or the clearing of the first-event flag) happens before
`json.dumps` runs, so a serialization failure leaves them behind, while the
not-open `RuntimeError` is raised before any mutation. -/
def write_event (w : ChromeTraceWriter) (ev : TraceEvent) :
    ChromeTraceWriter × Option WriteError :=
  if ¬ w.isOpen then (w, some .notOpen)
  else
    let w1 := if ¬ w.firstEvent then { w with file := w.file ++ [.sep] }
              else { w with firstEvent := false }
    match renderEventJson ev with
    | .error t => (w1, some (.serialization t))
    | .ok j => ({ w1 with file := w1.file ++ [.eventChunk j] }, none)

/-- Fold of `write_event` over a list of events, keeping only the states (used
to state what a whole session writes). -/
def writeMany (w : ChromeTraceWriter) : List TraceEvent → ChromeTraceWriter
  | [] => w
  | ev :: rest => writeMany (write_event w ev).1 rest

/-- All the events in the list serialize successfully. -/
def allRenderable (evs : List TraceEvent) : Bool :=
  evs.all fun ev => (renderEventJson ev).isOk

end ChromeTraceWriter

/-! Python dictionaries (the tracer's registries) as association lists:
lookup finds the first binding, assignment replaces in place or appends,
`pop` removes the binding. -/

/-- `d.get(k)` / `d[k]` lookup. -/
def lookupA {α : Type} : List (String × α) → String → Option α
  | [], _ => none
  | (k', v) :: rest, k => if k' = k then some v else lookupA rest k

/-- `d[k] = v`: replace the existing binding in place, else append. -/
def insertA {α : Type} : List (String × α) → String → α → List (String × α)
  | [], k, v => [(k, v)]
  | (k', v') :: rest, k, v =>
      if k' = k then (k, v) :: rest else (k', v') :: insertA rest k v

/-- `d.pop(k, None)`'s removal effect. -/
def eraseA {α : Type} (m : List (String × α)) (k : String) : List (String × α) :=
  m.filter fun kv => kv.1 ≠ k

/-- `Tracer` state from `tracer.py`: the enabled flag, the optional writer,
and the three registries (`_active_spans`, `_async_events`,
`_async_thread_ids`). -/
structure Tracer where
  enabled : Bool
  writer : Option ChromeTraceWriter
  active_spans : List (String × TraceEvent)
  async_events : List (String × TraceEvent)
  async_thread_ids : List (String × Nat)

namespace Tracer

/-- `Tracer.__init__(output_file, enabled)`. -/
def mk' (enabled : Bool) : Tracer :=
  { enabled := enabled, writer := none, active_spans := [],
    async_events := [], async_thread_ids := [] }

/-- The metadata event that `start` emits through
`ChromeTraceWriter.write_metadata("process_name", {"name": "Habitat Process"},
process_id=threading.current_thread().ident)`: thread id `0`, default
timestamp and category. -/
def startMetadataEvent (hh : String → Nat) (amb : Ambient) : TraceEvent :=
  mkEvent hh amb "process_name" .metadata none none (some amb.threadIdent)
    (some 0) "default" [("name", .vStr "Habitat Process")] none

/-- `Tracer.start`: a no-op when disabled or a writer already exists;
otherwise a fresh writer is opened and the process metadata event written. -/
def start (hh : String → Nat) (t : Tracer) (amb : Ambient) :
    Tracer × Option WriteError :=
  if ¬ t.enabled then (t, none)
  else
    match t.writer with
    | some _ => (t, none)
    | none =>
        let w0 := (ChromeTraceWriter.mk' true).openW
        let r := w0.write_event (startMetadataEvent hh amb)
        ({ t with writer := some r.1 }, r.2)

/-- `Tracer.stop`: close and drop the writer, if any. -/
def stop (t : Tracer) : Tracer :=
  if ¬ t.enabled then t
  else
    match t.writer with
    | some _ => { t with writer := none }
    | none => t

/-- `Tracer._write_event`: silently drop the event when disabled or no writer
exists, else delegate to the writer. -/
def write_event (t : Tracer) (ev : TraceEvent) : Tracer × Option WriteError :=
  if ¬ t.enabled then (t, none)
  else
    match t.writer with
    | none => (t, none)
    | some w =>
        let r := w.write_event ev
        ({ t with writer := some r.1 }, r.2)

/-- The complete event `span` builds in its `finally` block: timestamp
backdated to the recorded start, duration the elapsed wall-clock time, all
identity fields defaulted at exit time. -/
def spanEvent (hh : String → Nat) (endAmb : Ambient) (name category : String)
    (args : List (String × Value)) (startUs : Int) : TraceEvent :=
  mkEvent hh endAmb name .complete (some startUs) (some (endAmb.nowUs - startUs))
    none none category args none

/-- `Tracer.span` as a function of the wrapped work's outcome: the start time
is read at entry, the work runs, and on either exit path the one complete
event is emitted; the work's outcome (value or exception) is returned
unchanged. -/
def span {α : Type} (hh : String → Nat) (t : Tracer) (name category : String)
    (args : List (String × Value)) (startUs : Int) (work : Except String α)
    (endAmb : Ambient) : Tracer × Except String α × Option WriteError :=
  let r := t.write_event (spanEvent hh endAmb name category args startUs)
  (r.1, work, r.2)

/-- The duration-begin event `begin_span` builds. -/
def beginSpanEvent (hh : String → Nat) (amb : Ambient) (name category : String)
    (args : List (String × Value)) : TraceEvent :=
  mkEvent hh amb name .durationBegin none none none none category args none

/-- `Tracer.begin_span`: build the begin event, register it under the fresh
uuid token (supplied here as `freshId`), emit it, return the token. -/
def begin_span (hh : String → Nat) (t : Tracer) (amb : Ambient)
    (freshId : String) (name category : String)
    (args : List (String × Value)) : Tracer × String × Option WriteError :=
  let beginEvent := beginSpanEvent hh amb name category args
  let t1 := { t with active_spans := insertA t.active_spans freshId beginEvent }
  let r := t1.write_event beginEvent
  (r.1, freshId, r.2)

/-- The duration-end event `end_span` builds from the popped begin event. -/
def endSpanEvent (hh : String → Nat) (amb : Ambient) (beginEvent : TraceEvent)
    (args : List (String × Value)) : TraceEvent :=
  mkEvent hh amb beginEvent.name .durationEnd none none none none
    beginEvent.category args none

/-- `Tracer.end_span`: pop the token's registration; silently return when it
is unknown, else emit the matching duration-end event. -/
def end_span (hh : String → Nat) (t : Tracer) (amb : Ambient) (spanId : String)
    (args : List (String × Value)) : Tracer × Option WriteError :=
  match lookupA t.active_spans spanId with
  | none => (t, none)
  | some beginEvent =>
      let t1 := { t with active_spans := eraseA t.active_spans spanId }
      t1.write_event (endSpanEvent hh amb beginEvent args)

/-- `Tracer._get_async_thread_id`: return the cached lane for the id, or
allocate `0x20000000 + (md5(async_id)[:8] % 0x10000000)` and cache it. -/
def get_async_thread_id (hh : String → Nat) (t : Tracer) (asyncId : String) :
    Tracer × Nat :=
  match lookupA t.async_thread_ids asyncId with
  | some tid => (t, tid)
  | none =>
      let tid := asyncLane hh asyncId
      ({ t with async_thread_ids := insertA t.async_thread_ids asyncId tid }, tid)

/-- The async-begin event `async_begin` builds (explicit lane, carries the
correlation id). -/
def asyncBeginEvent (hh : String → Nat) (amb : Ambient) (name category : String)
    (args : List (String × Value)) (asyncId : String) (tid : Nat) : TraceEvent :=
  mkEvent hh amb name .asyncStart none none none (some tid) category args
    (some asyncId)

/-- `Tracer.async_begin` with the correlation id supplied: resolve/allocate
its lane, register the begin event, emit it, return the id. -/
def async_begin (hh : String → Nat) (t : Tracer) (amb : Ambient)
    (asyncId : String) (name category : String)
    (args : List (String × Value)) : Tracer × String × Option WriteError :=
  let p := t.get_async_thread_id hh asyncId
  let ev := asyncBeginEvent hh amb name category args asyncId p.2
  let t2 := { p.1 with async_events := insertA p.1.async_events asyncId ev }
  let r := t2.write_event ev
  (r.1, asyncId, r.2)

/-- The async-end event `async_end` builds from the popped begin event. -/
def asyncEndEvent (hh : String → Nat) (amb : Ambient) (beginEvent : TraceEvent)
    (args : List (String × Value)) (asyncId : String) (tid : Nat) : TraceEvent :=
  mkEvent hh amb beginEvent.name .asyncEnd none none none (some tid)
    beginEvent.category args (some asyncId)

/-- `Tracer.async_end`: pop the begin registration (always), read the cached
lane; when a begin event was registered, emit the async-end event on that lane
(falling back to the begin event's own lane) and release the lane mapping. -/
def async_end (hh : String → Nat) (t : Tracer) (amb : Ambient)
    (asyncId : String) (args : List (String × Value)) :
    Tracer × Option WriteError :=
  let beginEvent? := lookupA t.async_events asyncId
  let tid? := lookupA t.async_thread_ids asyncId
  let t1 := { t with async_events := eraseA t.async_events asyncId }
  match beginEvent? with
  | none => (t1, none)
  | some beginEvent =>
      let tid := tid?.getD beginEvent.threadId
      let r := t1.write_event (asyncEndEvent hh amb beginEvent args asyncId tid)
      ({ r.1 with async_thread_ids := eraseA r.1.async_thread_ids asyncId }, r.2)

end Tracer

/-! ### Auxiliary definitions used to state the claims -/

/-- Expected file chunks produced by a run of writes: when `first` is true the
leading event gets no separator, every later event is preceded by one. -/
def chunksAfter : Bool → List String → List FileTok
  | _, [] => []
  | true, j :: rest => .eventChunk j :: chunksAfter false rest
  | false, j :: rest => .sep :: .eventChunk j :: chunksAfter false rest

/-- The serialized forms of a list of events (defaulting to `""` for an event
that does not serialize; only applied under `allRenderable`). -/
def renderedList (evs : List TraceEvent) : List String :=
  evs.map fun ev => ((renderEventJson ev).toOption).getD ""

/-- Syntactic check of the tail of a streamed array: a comma-separated run of
event chunks closed by the array-closing token. -/
def parseTail : List FileTok → Option (List String)
  | [FileTok.footer] => some []
  | FileTok.sep :: FileTok.eventChunk j :: rest =>
      (parseTail rest).map (fun js => j :: js)
  | _ => none

/-- Syntactic check of a whole streamed array: the array-opening token, then
either the closing token (no events) or a first unseparated event chunk
followed by a `parseTail` run. Returns the event payloads in order. -/
def parseFile : List FileTok → Option (List String)
  | [FileTok.header, FileTok.footer] => some []
  | FileTok.header :: FileTok.eventChunk j :: rest =>
      (parseTail rest).map (fun js => j :: js)
  | _ => none

mutual
/-- A value contains a `Path` somewhere (at any depth). -/
def containsPath : Value → Bool
  | .vPath _ => true
  | .vDict d => containsPathArgs d
  | .vList items => containsPathItems items
  | _ => false

/-- An args dictionary contains a `Path` somewhere (at any depth). -/
def containsPathArgs : List (String × Value) → Bool
  | [] => false
  | (_, v) :: rest => containsPath v || containsPathArgs rest

/-- A list of values contains a `Path` somewhere (at any depth). -/
def containsPathItems : List Value → Bool
  | [] => false
  | v :: rest => containsPath v || containsPathItems rest
end

/-- No element of the list is itself a `Path` (elements are not descended
into). -/
def listTopPathFree (items : List Value) : Bool :=
  items.all fun it => !it.isPath

/-- What `_serialize_args` actually guarantees about `Path` values: none
remains as a direct dictionary value (at any dictionary nesting depth), and
none remains as a direct element of a sequence that is a dictionary value;
deeper positions inside sequences are not inspected. -/
def dictPathClear : List (String × Value) → Bool
  | [] => true
  | (_, v) :: rest =>
      (match v with
       | .vPath _ => false
       | .vDict d => dictPathClear d
       | .vList items => listTopPathFree items
       | _ => true) && dictPathClear rest

mutual
/-- Modelled from the spec (claim C7's reading of the sanitization contract,
for comparison with `serialize_args`): sanitization that really is recursive
element-wise — path-like values become strings, nested maps are recursed into,
and every element of a nested sequence is sanitized by the same rules at
arbitrary depth. -/
def sanitizeSpecValue : Value → Value
  | .vPath p => .vStr p
  | .vDict d => .vDict (sanitizeSpecArgs d)
  | .vList items => .vList (sanitizeSpecItems items)
  | v => v

/-- Spec-side sanitization of a dictionary (see `sanitizeSpecValue`). -/
def sanitizeSpecArgs : List (String × Value) → List (String × Value)
  | [] => []
  | (k, v) :: rest => (k, sanitizeSpecValue v) :: sanitizeSpecArgs rest

/-- Spec-side sanitization of a sequence (see `sanitizeSpecValue`). -/
def sanitizeSpecItems : List Value → List Value
  | [] => []
  | v :: rest => sanitizeSpecValue v :: sanitizeSpecItems rest
end

/-! ### Association-list lemmas -/

theorem lookupA_insertA_self {α : Type} (m : List (String × α)) (k : String)
    (v : α) : lookupA (insertA m k v) k = some v := by
  induction m with
  | nil => simp [insertA, lookupA]
  | cons kv rest ih =>
      obtain ⟨k', v'⟩ := kv
      by_cases h : k' = k <;> simp [insertA, lookupA, h, ih]

theorem lookupA_eraseA_self {α : Type} (m : List (String × α)) (k : String) :
    lookupA (eraseA m k) k = none := by
  induction m with
  | nil => simp [eraseA, lookupA]
  | cons kv rest ih =>
      obtain ⟨k', v'⟩ := kv
      by_cases h : k' = k <;>
        simp_all [eraseA, lookupA, List.filter, h]

theorem length_insertA_fresh {α : Type} (m : List (String × α)) (k : String)
    (v : α) (h : lookupA m k = none) :
    (insertA m k v).length = m.length + 1 := by
  induction m with
  | nil => simp [insertA]
  | cons kv rest ih =>
      obtain ⟨k', v'⟩ := kv
      by_cases hk : k' = k
      · simp [lookupA, hk] at h
      · simp only [lookupA, hk, if_false] at h
        simp [insertA, hk, ih h]

/-! ### Writer lemmas -/

namespace ChromeTraceWriter

theorem close_isOpen (w : ChromeTraceWriter) : w.close.isOpen = false := by
  unfold close
  by_cases h : w.isOpen <;> simp [h]

theorem write_event_ok (w : ChromeTraceWriter) (ev : TraceEvent) (j : String)
    (hw : w.isOpen = true) (hr : renderEventJson ev = .ok j) :
    w.write_event ev =
      ({ w with firstEvent := false
                file := w.file ++
                  (if w.firstEvent then [.eventChunk j]
                   else [.sep, .eventChunk j]) }, none) := by
  unfold write_event
  rw [hw]
  simp only [not_true_eq_false, if_false, hr]
  cases hf : w.firstEvent <;> simp [hf]

theorem writeMany_spec (evs : List TraceEvent) (w : ChromeTraceWriter)
    (hw : w.isOpen = true) (hall : allRenderable evs = true) :
    w.writeMany evs =
      { w with firstEvent := w.firstEvent && evs.isEmpty
               file := w.file ++ chunksAfter w.firstEvent (renderedList evs) } := by
  induction evs generalizing w with
  | nil => simp [writeMany, chunksAfter, renderedList]
  | cons ev rest ih =>
      have hok : (renderEventJson ev).isOk = true := by
        simp [allRenderable, List.all_cons] at hall
        exact hall.1
      have hall' : allRenderable rest = true := by
        simp [allRenderable, List.all_cons] at hall ⊢
        exact hall.2
      obtain ⟨j, hj⟩ : ∃ j, renderEventJson ev = .ok j := by
        cases h : renderEventJson ev with
        | ok j => exact ⟨j, rfl⟩
        | error e => rw [h] at hok; simp [Except.isOk, Except.toBool] at hok
      have hstep := ih
        ({ w with firstEvent := false
                  file := w.file ++
                    (if w.firstEvent then [FileTok.eventChunk j]
                     else [FileTok.sep, FileTok.eventChunk j]) }) hw hall'
      rw [writeMany, write_event_ok w ev j hw hj]
      cases hf : w.firstEvent <;>
        simp_all [renderedList, chunksAfter, List.append_assoc, Except.toOption]

end ChromeTraceWriter

/-! ### Parser lemmas -/

theorem parseTail_chunks (js : List String) :
    parseTail (chunksAfter false js ++ [FileTok.footer]) = some js := by
  induction js with
  | nil => simp [chunksAfter, parseTail]
  | cons j rest ih => simp [chunksAfter, parseTail, ih]

theorem parseFile_chunks (js : List String) :
    parseFile (FileTok.header :: (chunksAfter true js ++ [FileTok.footer]))
      = some js := by
  cases js with
  | nil => simp [chunksAfter, parseFile]
  | cons j rest => simp [chunksAfter, parseFile, parseTail_chunks]

/-! ### Claim C8 -/

/-- C8. A write on a `ChromeTraceWriter` that was never opened, or on one
after a `close`, fails with the not-open error (`NotOpenError` in the spec's
taxonomy, the `RuntimeError` of `writer.py`), and the writer's whole state —
in particular the sink content and the first-event flag — is unchanged. -/
theorem write_before_open_or_after_close_errors :
    (∀ (af : Bool) (ev : TraceEvent),
      (ChromeTraceWriter.mk' af).write_event ev
        = (ChromeTraceWriter.mk' af, some WriteError.notOpen)) ∧
    (∀ (w : ChromeTraceWriter) (ev : TraceEvent),
      w.close.write_event ev = (w.close, some WriteError.notOpen)) := by
  constructor
  · intro af ev
    simp [ChromeTraceWriter.write_event, ChromeTraceWriter.mk']
  · intro w ev
    have h := w.close_isOpen
    simp [ChromeTraceWriter.write_event, h]

/-! ### Claim C9 -/

/-- C9. `open` and `close` are idempotent: a second `open` while the writer is
already open changes nothing (no truncation, no second array-opening token,
no reset of the first-event flag), and `close` on an already-closed writer
changes nothing; in particular `openW ∘ openW = openW` and
`close ∘ close = close` on every state. -/
theorem open_close_idempotent :
    (∀ w : ChromeTraceWriter, w.isOpen = true → w.openW = w) ∧
    (∀ w : ChromeTraceWriter, w.isOpen = false → w.close = w) ∧
    (∀ w : ChromeTraceWriter, w.openW.openW = w.openW) ∧
    (∀ w : ChromeTraceWriter, w.close.close = w.close) := by
  refine ⟨?_, ?_, ?_, ?_⟩
  · intro w h; simp [ChromeTraceWriter.openW, h]
  · intro w h; simp [ChromeTraceWriter.close, h]
  · intro w
    by_cases h : w.isOpen <;> simp [ChromeTraceWriter.openW, h]
  · intro w
    by_cases h : w.isOpen <;> simp [ChromeTraceWriter.close, h]

/-- Witness for C9 at a concrete writer: re-opening the opened fresh writer
and re-closing the fresh (still closed) writer both change nothing. -/
theorem open_close_idempotent_witness :
    ((ChromeTraceWriter.mk' true).openW.isOpen = true ∧
      (ChromeTraceWriter.mk' true).openW.openW
        = (ChromeTraceWriter.mk' true).openW) ∧
    ((ChromeTraceWriter.mk' true).isOpen = false ∧
      (ChromeTraceWriter.mk' true).close = ChromeTraceWriter.mk' true) :=
  ⟨⟨rfl, open_close_idempotent.1 _ rfl⟩,
   ⟨rfl, open_close_idempotent.2.1 _ rfl⟩⟩

/-! ### Claim C5 -/

/-- C5, amended. Every synthetic coroutine lane lies in the reserved range
`[0x10000000, 0x20000000)`, every synthetic async lane lies in the disjoint
reserved range `[0x20000000, 0x30000000)`, and no coroutine lane ever equals
an async lane — for every hash function and every key. (The further original
statement, that a synthetic lane is never equal to a real OS thread identity
used as a lane id, is refuted by `synthetic_lane_collides_with_thread_ident`:
the code nowhere constrains real thread idents to avoid these ranges.) -/
theorem synthetic_lanes_reserved_and_disjoint (hh hg : String → Nat)
    (taskId : Nat) (asyncId : String) :
    0x10000000 ≤ coroutineLane hh taskId ∧
    coroutineLane hh taskId < 0x20000000 ∧
    0x20000000 ≤ asyncLane hg asyncId ∧
    asyncLane hg asyncId < 0x30000000 ∧
    coroutineLane hh taskId ≠ asyncLane hg asyncId := by
  have h1 : hh (toString taskId) % 0x10000000 < 0x10000000 :=
    Nat.mod_lt _ (by norm_num)
  have h2 : hg asyncId % 0x10000000 < 0x10000000 :=
    Nat.mod_lt _ (by norm_num)
  unfold coroutineLane asyncLane
  omega

/-- C5, counterexample to the original claim: a plain thread whose OS ident is
`0x10000000` (nothing in the code forbids this value) records events with lane
id `0x10000000`, which is exactly the synthetic coroutine lane allocated for a
task whose id hashes to residue `0`; so a synthetic lane can be equal to a
real OS thread identity used as a lane id. -/
theorem synthetic_lane_collides_with_thread_ident :
    get_coroutine_thread_id (fun _ => 0)
        { nowUs := 0, threadIdent := 0x10000000, currentTask := none }
      = 0x10000000 ∧
    coroutineLane (fun _ => 0) 7 = 0x10000000 ∧
    (mkEvent (fun _ => 0)
        { nowUs := 0, threadIdent := 0x10000000, currentTask := none }
        "e" .instant none none none none "default" [] none).threadId
      = coroutineLane (fun _ => 0) 7 :=
  ⟨rfl, rfl, rfl⟩

/-! ### Claim C6 -/

/-- An event whose args hold a value `json.dumps` cannot serialize, under the
key `key_a`. -/
def badEventA : TraceEvent :=
  { name := "e", eventType := .instant, timestamp := 0, duration := none,
    processId := 1, threadId := 1, category := "default",
    args := [("key_a", .vOpaque "set")], asyncId := none }

/-- Like `badEventA`, but the offending value sits under the key `key_b`. -/
def badEventB : TraceEvent :=
  { name := "e", eventType := .instant, timestamp := 0, duration := none,
    processId := 1, threadId := 1, category := "default",
    args := [("key_b", .vOpaque "set")], asyncId := none }

/-- C6, amended. An event whose args cannot be reduced to serializable
primitives after sanitization fails at write time: `write_event` surfaces the
serialization error, carrying the offending value's type name as reported by
`json.dumps` — and event construction itself never fails for such values
(`TraceEvent.__init__` stores the args untouched, performing no
serialization). -/
theorem serialization_fails_at_write_not_construction (w : ChromeTraceWriter)
    (ev : TraceEvent) (t : String) (hw : w.isOpen = true)
    (hr : renderEventJson ev = .error t) :
    (w.write_event ev).2 = some (WriteError.serialization t) ∧
    ∀ (hh : String → Nat) (amb : Ambient) (name : String) (ty : EventType)
      (ts d : Option Int) (pid tid : Option Nat) (cat : String)
      (args : List (String × Value)) (aid : Option String),
      (mkEvent hh amb name ty ts d pid tid cat args aid).args = args := by
  constructor
  · unfold ChromeTraceWriter.write_event
    rw [hw]
    by_cases hf : w.firstEvent = true <;>
      simp [hf, hr]
  · intro hh amb name ty ts d pid tid cat args aid
    rfl

/-- Witness for C6 (amended) at a concrete input: writing `badEventA` through
an open writer yields the serialization error with the type name `set`, and a
concretely constructed event stores its unserializable args untouched. -/
theorem serialization_fails_at_write_not_construction_witness :
    (((ChromeTraceWriter.mk' true).openW.write_event badEventA).2
      = some (WriteError.serialization "set")) ∧
    (mkEvent (fun _ => 0) { nowUs := 0, threadIdent := 0, currentTask := none }
        "e" .instant none none none none "default"
        [("key_a", .vOpaque "set")] none).args
      = [("key_a", .vOpaque "set")] :=
  ⟨(serialization_fails_at_write_not_construction _ badEventA "set" rfl
      (by simp [renderEventJson, badEventA, TraceEvent.to_dict, serialize_args,
                renderValue, renderEntries])).1,
   (serialization_fails_at_write_not_construction
      ((ChromeTraceWriter.mk' true).openW) badEventA "set" rfl
      (by simp [renderEventJson, badEventA, TraceEvent.to_dict, serialize_args,
                renderValue, renderEntries])).2
     (fun _ => 0) { nowUs := 0, threadIdent := 0, currentTask := none }
     "e" .instant none none none none "default"
     [("key_a", .vOpaque "set")] none⟩

/-- C6, counterexample to the original claim's "identifies the offending key":
the errors raised for two events whose only difference is the offending key
(`key_a` vs `key_b`) are identical — `json.dumps`'s `TypeError` carries only
the value's type name, so the surfaced error cannot identify the offending
key. -/
theorem serialization_error_carries_no_key :
    ((ChromeTraceWriter.mk' true).openW.write_event badEventA).2
      = ((ChromeTraceWriter.mk' true).openW.write_event badEventB).2 ∧
    ((ChromeTraceWriter.mk' true).openW.write_event badEventA).2
      = some (WriteError.serialization "set") ∧
    badEventA.args.map Prod.fst = ["key_a"] ∧
    badEventB.args.map Prod.fst = ["key_b"] := by
  refine ⟨?_, ?_, rfl, rfl⟩ <;>
    simp [ChromeTraceWriter.write_event, ChromeTraceWriter.mk',
          ChromeTraceWriter.openW, renderEventJson, badEventA, badEventB,
          TraceEvent.to_dict, serialize_args, renderValue, renderEntries]

/-! ### Claim C7 -/

theorem sanitizeItem_top_path_free (items : List Value) :
    listTopPathFree (items.map sanitizeItem) = true := by
  induction items with
  | nil => rfl
  | cons v rest ih =>
      cases v <;> simp_all [listTopPathFree, sanitizeItem, Value.isPath]

/-- C7, amended. Sanitization recurses into nested maps at arbitrary depth and
converts path-like values to strings there, and it converts path-like elements
of a nested sequence at the sequence's top level only: after `_serialize_args`
no `Path` remains as a direct dictionary value (at any dictionary nesting
depth) nor as a direct element of a sequence stored as a dictionary value.
Deeper positions inside sequences are not sanitized (see the
counterexample). -/
theorem serialize_args_dictPathClear (args : List (String × Value)) :
    dictPathClear (serialize_args args) = true := by
  induction args using serialize_args.induct with
  | case1 => simp [serialize_args, dictPathClear]
  | case2 k p rest ih => simp [serialize_args, dictPathClear, ih]
  | case3 k d rest ihd ih => simp [serialize_args, dictPathClear, ihd, ih]
  | case4 k items rest ih =>
      simp [serialize_args, dictPathClear, sanitizeItem_top_path_free, ih]
  | case5 k v rest h1 h2 h3 ih =>
      cases v <;> simp_all [serialize_args, dictPathClear]

/-- Args with a `Path` nested two sequence levels deep. -/
def nestedSeqArgs : List (String × Value) :=
  [("files", .vList [.vList [.vPath "/tmp/a.txt"]])]

/-- C7, counterexample to "every element of a nested sequence is itself
sanitized by the same rules, at arbitrary nesting depth": a `Path` inside a
list inside a list survives `_serialize_args` untouched (the whole args map is
returned unchanged), while the sanitization the spec describes
(`sanitizeSpecArgs`) removes it. -/
theorem serialize_args_misses_nested_sequence_path :
    containsPathArgs (serialize_args nestedSeqArgs) = true ∧
    containsPathArgs (sanitizeSpecArgs nestedSeqArgs) = false ∧
    serialize_args nestedSeqArgs = nestedSeqArgs := by
  refine ⟨?_, ?_, ?_⟩ <;>
    simp [nestedSeqArgs, serialize_args, sanitizeSpecArgs, sanitizeSpecValue,
          sanitizeSpecItems, containsPathArgs, containsPath, containsPathItems,
          sanitizeItem]

/-! ### Claim C1 -/

/-- C1. For every sequence of successfully written events between one `open`
and one `close`, the sink is a syntactically valid streamed array of exactly
those events: the array-opening token precedes all events, a comma separator
precedes every event except the first, no separator precedes the first, and
the array-closing token is appended by `close`. `parseFile` recovers exactly
the `N` serialized events. -/
theorem writer_streams_valid_event_array (af : Bool) (evs : List TraceEvent)
    (hall : ChromeTraceWriter.allRenderable evs = true) :
    parseFile (((ChromeTraceWriter.mk' af).openW.writeMany evs).close).file
      = some (renderedList evs) ∧
    (renderedList evs).length = evs.length ∧
    (((ChromeTraceWriter.mk' af).openW.writeMany evs).close).file
      = FileTok.header ::
          (chunksAfter true (renderedList evs) ++ [FileTok.footer]) := by
  have hiso : ((ChromeTraceWriter.mk' af).openW).isOpen = true := by
    simp [ChromeTraceWriter.mk', ChromeTraceWriter.openW]
  have hw := ChromeTraceWriter.writeMany_spec evs
    ((ChromeTraceWriter.mk' af).openW) hiso hall
  have hfile : (((ChromeTraceWriter.mk' af).openW.writeMany evs).close).file
      = FileTok.header ::
          (chunksAfter true (renderedList evs) ++ [FileTok.footer]) := by
    rw [hw]
    simp [ChromeTraceWriter.close, ChromeTraceWriter.openW,
          ChromeTraceWriter.mk']
  refine ⟨?_, by simp [renderedList], hfile⟩
  rw [hfile, parseFile_chunks]

/-- A concrete renderable instant event. -/
def sampleEventOne : TraceEvent :=
  { name := "alpha", eventType := .instant, timestamp := 1, duration := none,
    processId := 2, threadId := 3, category := "default", args := [],
    asyncId := none }

/-- A concrete renderable complete event with args. -/
def sampleEventTwo : TraceEvent :=
  { name := "beta", eventType := .complete, timestamp := 4, duration := some 5,
    processId := 2, threadId := 3, category := "default",
    args := [("value", .vInt 1)], asyncId := none }

/-- Witness for C1 at two concrete events: both serialize, and the produced
file parses as an array of exactly those two serialized events. -/
theorem writer_streams_valid_event_array_witness :
    ChromeTraceWriter.allRenderable [sampleEventOne, sampleEventTwo] = true ∧
    (parseFile (((ChromeTraceWriter.mk' true).openW.writeMany
          [sampleEventOne, sampleEventTwo]).close).file
        = some (renderedList [sampleEventOne, sampleEventTwo]) ∧
      (renderedList [sampleEventOne, sampleEventTwo]).length
        = [sampleEventOne, sampleEventTwo].length ∧
      (((ChromeTraceWriter.mk' true).openW.writeMany
          [sampleEventOne, sampleEventTwo]).close).file
        = FileTok.header ::
            (chunksAfter true (renderedList [sampleEventOne, sampleEventTwo])
              ++ [FileTok.footer])) :=
  ⟨by simp [ChromeTraceWriter.allRenderable, sampleEventOne, sampleEventTwo,
            renderEventJson, TraceEvent.to_dict, serialize_args, renderValue,
            renderEntries, Except.isOk, Except.toBool],
   writer_streams_valid_event_array true [sampleEventOne, sampleEventTwo]
     (by simp [ChromeTraceWriter.allRenderable, sampleEventOne, sampleEventTwo,
               renderEventJson, TraceEvent.to_dict, serialize_args, renderValue,
               renderEntries, Except.isOk, Except.toBool])⟩

/-! ### Claim C2 -/

/-- C2. A `span` scope on a started, enabled tracer emits exactly one event on
every exit path — the work's outcome, normal value or exception, is returned
to the caller unchanged — and that one event is a complete event whose
timestamp is the recorded scope-entry time and whose duration is the elapsed
(non-negative, given that the wall clock did not step backwards) time. -/
theorem span_single_complete_event_all_paths {α : Type} (hh : String → Nat)
    (t : Tracer) (w : ChromeTraceWriter) (name category : String)
    (args : List (String × Value)) (startUs : Int) (work : Except String α)
    (endAmb : Ambient)
    (ht : t.enabled = true) (htw : t.writer = some w) (hw : w.isOpen = true)
    (hmono : startUs ≤ endAmb.nowUs)
    (hok : (renderEventJson
      (Tracer.spanEvent hh endAmb name category args startUs)).isOk = true) :
    (t.span hh name category args startUs work endAmb).2.1 = work ∧
    (t.span hh name category args startUs work endAmb).2.2 = none ∧
    (∃ j, renderEventJson
        (Tracer.spanEvent hh endAmb name category args startUs) = .ok j ∧
      (t.span hh name category args startUs work endAmb).1 =
        { t with writer := some { w with firstEvent := false, file := w.file ++ chunksAfter w.firstEvent [j] } }) ∧
    (Tracer.spanEvent hh endAmb name category args startUs).eventType
      = .complete ∧
    (Tracer.spanEvent hh endAmb name category args startUs).timestamp
      = startUs ∧
    ∃ d, (Tracer.spanEvent hh endAmb name category args startUs).duration
        = some d ∧ 0 ≤ d := by
  obtain ⟨j, hj⟩ : ∃ j, renderEventJson
      (Tracer.spanEvent hh endAmb name category args startUs) = .ok j := by
    cases h : renderEventJson
        (Tracer.spanEvent hh endAmb name category args startUs) with
    | ok j => exact ⟨j, rfl⟩
    | error e => rw [h] at hok; simp [Except.isOk, Except.toBool] at hok
  have hwrec := ChromeTraceWriter.write_event_ok w
    (Tracer.spanEvent hh endAmb name category args startUs) j hw hj
  refine ⟨?_, ?_, ⟨j, hj, ?_⟩, rfl, rfl,
    ⟨endAmb.nowUs - startUs, rfl, by omega⟩⟩
  · simp [Tracer.span, Tracer.write_event, ht, htw]
  · simp [Tracer.span, Tracer.write_event, ht, htw, hwrec]
  · simp only [Tracer.span, Tracer.write_event, ht, htw]
    simp [hwrec]
    cases hf : w.firstEvent <;> simp [hf, chunksAfter]

/-- Witness for C2 at a concrete failing work item: the span on a started
tracer returns the exception unchanged and emits the one complete event. -/
theorem span_single_complete_event_all_paths_witness :
    (Tracer.span (α := Nat) (fun _ => 0)
        { enabled := true,
          writer := some ((ChromeTraceWriter.mk' true).openW),
          active_spans := [], async_events := [], async_thread_ids := [] }
        "work" "default" [] 5 (Except.error "boom")
        { nowUs := 9, threadIdent := 2, currentTask := none }).2.1
      = Except.error "boom" ∧
    ∃ d, (Tracer.spanEvent (fun _ => 0)
        { nowUs := 9, threadIdent := 2, currentTask := none }
        "work" "default" [] 5).duration = some d ∧ 0 ≤ d :=
  ⟨(span_single_complete_event_all_paths (α := Nat) (fun _ => 0)
      { enabled := true,
        writer := some ((ChromeTraceWriter.mk' true).openW),
        active_spans := [], async_events := [], async_thread_ids := [] }
      ((ChromeTraceWriter.mk' true).openW) "work" "default" [] 5
      (Except.error "boom")
      { nowUs := 9, threadIdent := 2, currentTask := none }
      rfl rfl rfl (by norm_num)
      (by simp [Tracer.spanEvent, mkEvent, renderEventJson,
                TraceEvent.to_dict, serialize_args, renderValue,
                renderEntries, Except.isOk, Except.toBool])).1,
   (span_single_complete_event_all_paths (α := Nat) (fun _ => 0)
      { enabled := true,
        writer := some ((ChromeTraceWriter.mk' true).openW),
        active_spans := [], async_events := [], async_thread_ids := [] }
      ((ChromeTraceWriter.mk' true).openW) "work" "default" [] 5
      (Except.error "boom")
      { nowUs := 9, threadIdent := 2, currentTask := none }
      rfl rfl rfl (by norm_num)
      (by simp [Tracer.spanEvent, mkEvent, renderEventJson,
                TraceEvent.to_dict, serialize_args, renderValue,
                renderEntries, Except.isOk, Except.toBool])).2.2.2.2.2⟩

/-! ### Claim C3 -/

/-- C3. On a started, enabled tracer, `begin_span` returns its fresh token
after emitting exactly one duration-begin event, and one `end_span` with that
token emits exactly one duration-end event carrying the begin event's name and
category (which are the requested ones); afterwards the token's registration
is gone, so a second use would be a silent no-op. The file grows by exactly
the two events' chunks. No thread identity is consulted for the pairing: the
operations work for arbitrary ambient states `amb`, `amb2`. -/
theorem begin_end_span_paired_events (hh : String → Nat) (t : Tracer)
    (w : ChromeTraceWriter) (amb amb2 : Ambient) (tok name category : String)
    (args args2 : List (String × Value))
    (ht : t.enabled = true) (htw : t.writer = some w) (hw : w.isOpen = true)
    (hb : (renderEventJson
      (Tracer.beginSpanEvent hh amb name category args)).isOk = true)
    (he : (renderEventJson (Tracer.endSpanEvent hh amb2
      (Tracer.beginSpanEvent hh amb name category args) args2)).isOk = true) :
    (t.begin_span hh amb tok name category args).2.1 = tok ∧
    (t.begin_span hh amb tok name category args).2.2 = none ∧
    (Tracer.end_span hh (t.begin_span hh amb tok name category args).1
      amb2 tok args2).2 = none ∧
    (Tracer.beginSpanEvent hh amb name category args).eventType
      = EventType.durationBegin ∧
    (Tracer.endSpanEvent hh amb2
      (Tracer.beginSpanEvent hh amb name category args) args2).eventType
      = EventType.durationEnd ∧
    (Tracer.endSpanEvent hh amb2
      (Tracer.beginSpanEvent hh amb name category args) args2).name
      = (Tracer.beginSpanEvent hh amb name category args).name ∧
    (Tracer.endSpanEvent hh amb2
      (Tracer.beginSpanEvent hh amb name category args) args2).category
      = (Tracer.beginSpanEvent hh amb name category args).category ∧
    (Tracer.beginSpanEvent hh amb name category args).name = name ∧
    (Tracer.beginSpanEvent hh amb name category args).category = category ∧
    (∃ jb je w2,
      renderEventJson (Tracer.beginSpanEvent hh amb name category args)
        = .ok jb ∧
      renderEventJson (Tracer.endSpanEvent hh amb2
        (Tracer.beginSpanEvent hh amb name category args) args2) = .ok je ∧
      (Tracer.end_span hh (t.begin_span hh amb tok name category args).1
        amb2 tok args2).1.writer = some w2 ∧
      w2.file = w.file ++ chunksAfter w.firstEvent [jb, je]) ∧
    lookupA (Tracer.end_span hh (t.begin_span hh amb tok name category args).1
      amb2 tok args2).1.active_spans tok = none := by
  obtain ⟨jb, hjb⟩ : ∃ jb, renderEventJson
      (Tracer.beginSpanEvent hh amb name category args) = .ok jb := by
    cases h : renderEventJson (Tracer.beginSpanEvent hh amb name category args) with
    | ok jb => exact ⟨jb, rfl⟩
    | error e => rw [h] at hb; simp [Except.isOk, Except.toBool] at hb
  obtain ⟨je, hje⟩ : ∃ je, renderEventJson (Tracer.endSpanEvent hh amb2
      (Tracer.beginSpanEvent hh amb name category args) args2) = .ok je := by
    cases h : renderEventJson (Tracer.endSpanEvent hh amb2
        (Tracer.beginSpanEvent hh amb name category args) args2) with
    | ok je => exact ⟨je, rfl⟩
    | error e => rw [h] at he; simp [Except.isOk, Except.toBool] at he
  have hw1 := ChromeTraceWriter.write_event_ok w
    (Tracer.beginSpanEvent hh amb name category args) jb hw hjb
  have h1 : t.begin_span hh amb tok name category args
      = ({ t with
            active_spans := insertA t.active_spans tok
              (Tracer.beginSpanEvent hh amb name category args)
            writer := some { w with firstEvent := false, file := w.file ++ (if w.firstEvent then [FileTok.eventChunk jb] else [FileTok.sep, FileTok.eventChunk jb]) } },
         tok, none) := by
    simp [Tracer.begin_span, Tracer.write_event, ht, htw, hw1]
  have hw2 := ChromeTraceWriter.write_event_ok
    { w with firstEvent := false, file := w.file ++ (if w.firstEvent then [FileTok.eventChunk jb] else [FileTok.sep, FileTok.eventChunk jb]) }
    (Tracer.endSpanEvent hh amb2
      (Tracer.beginSpanEvent hh amb name category args) args2) je hw hje
  have h2 : Tracer.end_span hh (t.begin_span hh amb tok name category args).1
      amb2 tok args2
      = ({ t with
            active_spans := eraseA (insertA t.active_spans tok
              (Tracer.beginSpanEvent hh amb name category args)) tok
            writer := some { w with firstEvent := false, file := (w.file ++ (if w.firstEvent then [FileTok.eventChunk jb] else [FileTok.sep, FileTok.eventChunk jb])) ++ [FileTok.sep, FileTok.eventChunk je] } },
         none) := by
    rw [h1]
    simp [Tracer.end_span, lookupA_insertA_self, Tracer.write_event, ht, hw2]
  refine ⟨by rw [h1], by rw [h1], by rw [h2], rfl, rfl, rfl, rfl, rfl, rfl,
    ⟨jb, je,
      { w with firstEvent := false, file := (w.file ++ (if w.firstEvent then [FileTok.eventChunk jb] else [FileTok.sep, FileTok.eventChunk jb])) ++ [FileTok.sep, FileTok.eventChunk je] },
      hjb, hje, by rw [h2], ?_⟩,
    by rw [h2]; exact lookupA_eraseA_self _ _⟩
  cases hf : w.firstEvent <;> simp [hf, chunksAfter, List.append_assoc]

/-- Witness for C3 at concrete inputs: the token round-trips, the end event
carries the begin event's name and category, and the registration is gone. -/
theorem begin_end_span_paired_events_witness :
    (Tracer.begin_span (fun _ => 0)
      { enabled := true,
        writer := some ((ChromeTraceWriter.mk' true).openW),
        active_spans := [], async_events := [], async_thread_ids := [] }
      { nowUs := 3, threadIdent := 2, currentTask := none }
      "tok-1" "load" "cat" []).2.1 = "tok-1" ∧
    (Tracer.endSpanEvent (fun _ => 0)
      { nowUs := 8, threadIdent := 4, currentTask := none }
      (Tracer.beginSpanEvent (fun _ => 0)
        { nowUs := 3, threadIdent := 2, currentTask := none }
        "load" "cat" []) []).name
      = (Tracer.beginSpanEvent (fun _ => 0)
        { nowUs := 3, threadIdent := 2, currentTask := none }
        "load" "cat" []).name ∧
    lookupA (Tracer.end_span (fun _ => 0)
      (Tracer.begin_span (fun _ => 0)
        { enabled := true,
          writer := some ((ChromeTraceWriter.mk' true).openW),
          active_spans := [], async_events := [], async_thread_ids := [] }
        { nowUs := 3, threadIdent := 2, currentTask := none }
        "tok-1" "load" "cat" []).1
      { nowUs := 8, threadIdent := 4, currentTask := none }
      "tok-1" []).1.active_spans "tok-1" = none := by
  have h := begin_end_span_paired_events (fun _ => 0)
    { enabled := true,
      writer := some ((ChromeTraceWriter.mk' true).openW),
      active_spans := [], async_events := [], async_thread_ids := [] }
    ((ChromeTraceWriter.mk' true).openW)
    { nowUs := 3, threadIdent := 2, currentTask := none }
    { nowUs := 8, threadIdent := 4, currentTask := none }
    "tok-1" "load" "cat" [] [] rfl rfl rfl
    (by simp [Tracer.beginSpanEvent, mkEvent, renderEventJson,
              TraceEvent.to_dict, serialize_args, renderValue, renderEntries,
              Except.isOk, Except.toBool])
    (by simp [Tracer.beginSpanEvent, Tracer.endSpanEvent, mkEvent,
              renderEventJson, TraceEvent.to_dict, serialize_args, renderValue,
              renderEntries, Except.isOk, Except.toBool])
  exact ⟨h.1, h.2.2.2.2.2.1, h.2.2.2.2.2.2.2.2.2.2⟩

/-! ### Claim C4 -/

theorem get_async_thread_id_spec (hh : String → Nat) (t : Tracer)
    (aid : String) :
    lookupA (t.get_async_thread_id hh aid).1.async_thread_ids aid
      = some (t.get_async_thread_id hh aid).2 ∧
    (t.get_async_thread_id hh aid).1.enabled = t.enabled ∧
    (t.get_async_thread_id hh aid).1.writer = t.writer ∧
    (t.get_async_thread_id hh aid).1.async_events = t.async_events := by
  unfold Tracer.get_async_thread_id
  cases h : lookupA t.async_thread_ids aid <;>
    simp [h, lookupA_insertA_self]

/-- C4. On a started, enabled tracer, `async_begin(name, id)` followed by
`async_end(id)` emits one async-begin and one async-end event that carry the
identical correlation id and the identical lane id (`tid`), and after
`async_end` returns the id's lane mapping has been removed from the lane
cache. The file grows by exactly the two events' chunks. -/
theorem async_begin_end_share_id_and_lane (hh : String → Nat) (t : Tracer)
    (w : ChromeTraceWriter) (amb amb2 : Ambient) (aid name category : String)
    (args args2 : List (String × Value))
    (ht : t.enabled = true) (htw : t.writer = some w) (hw : w.isOpen = true)
    (hb : (renderEventJson (Tracer.asyncBeginEvent hh amb name category args
      aid (t.get_async_thread_id hh aid).2)).isOk = true)
    (he : (renderEventJson (Tracer.asyncEndEvent hh amb2
      (Tracer.asyncBeginEvent hh amb name category args aid
        (t.get_async_thread_id hh aid).2) args2 aid
      (t.get_async_thread_id hh aid).2)).isOk = true) :
    (t.async_begin hh amb aid name category args).2.1 = aid ∧
    (t.async_begin hh amb aid name category args).2.2 = none ∧
    (Tracer.async_end hh (t.async_begin hh amb aid name category args).1
      amb2 aid args2).2 = none ∧
    (Tracer.asyncBeginEvent hh amb name category args aid
      (t.get_async_thread_id hh aid).2).asyncId = some aid ∧
    (Tracer.asyncEndEvent hh amb2
      (Tracer.asyncBeginEvent hh amb name category args aid
        (t.get_async_thread_id hh aid).2) args2 aid
      (t.get_async_thread_id hh aid).2).asyncId = some aid ∧
    (Tracer.asyncEndEvent hh amb2
      (Tracer.asyncBeginEvent hh amb name category args aid
        (t.get_async_thread_id hh aid).2) args2 aid
      (t.get_async_thread_id hh aid).2).threadId
      = (Tracer.asyncBeginEvent hh amb name category args aid
        (t.get_async_thread_id hh aid).2).threadId ∧
    (Tracer.asyncBeginEvent hh amb name category args aid
      (t.get_async_thread_id hh aid).2).eventType = EventType.asyncStart ∧
    (Tracer.asyncEndEvent hh amb2
      (Tracer.asyncBeginEvent hh amb name category args aid
        (t.get_async_thread_id hh aid).2) args2 aid
      (t.get_async_thread_id hh aid).2).eventType = EventType.asyncEnd ∧
    (∃ jb je w2,
      renderEventJson (Tracer.asyncBeginEvent hh amb name category args aid
        (t.get_async_thread_id hh aid).2) = .ok jb ∧
      renderEventJson (Tracer.asyncEndEvent hh amb2
        (Tracer.asyncBeginEvent hh amb name category args aid
          (t.get_async_thread_id hh aid).2) args2 aid
        (t.get_async_thread_id hh aid).2) = .ok je ∧
      (Tracer.async_end hh (t.async_begin hh amb aid name category args).1
        amb2 aid args2).1.writer = some w2 ∧
      w2.file = w.file ++ chunksAfter w.firstEvent [jb, je]) ∧
    lookupA (Tracer.async_end hh
      (t.async_begin hh amb aid name category args).1
      amb2 aid args2).1.async_thread_ids aid = none := by
  obtain ⟨jb, hjb⟩ : ∃ jb, renderEventJson
      (Tracer.asyncBeginEvent hh amb name category args aid
        (t.get_async_thread_id hh aid).2) = .ok jb := by
    cases h : renderEventJson (Tracer.asyncBeginEvent hh amb name category
        args aid (t.get_async_thread_id hh aid).2) with
    | ok jb => exact ⟨jb, rfl⟩
    | error e => rw [h] at hb; simp [Except.isOk, Except.toBool] at hb
  obtain ⟨je, hje⟩ : ∃ je, renderEventJson (Tracer.asyncEndEvent hh amb2
      (Tracer.asyncBeginEvent hh amb name category args aid
        (t.get_async_thread_id hh aid).2) args2 aid
      (t.get_async_thread_id hh aid).2) = .ok je := by
    cases h : renderEventJson (Tracer.asyncEndEvent hh amb2
        (Tracer.asyncBeginEvent hh amb name category args aid
          (t.get_async_thread_id hh aid).2) args2 aid
        (t.get_async_thread_id hh aid).2) with
    | ok je => exact ⟨je, rfl⟩
    | error e => rw [h] at he; simp [Except.isOk, Except.toBool] at he
  obtain ⟨hs1, hs2, hs3, hs4⟩ := get_async_thread_id_spec hh t aid
  have hw1 := ChromeTraceWriter.write_event_ok w
    (Tracer.asyncBeginEvent hh amb name category args aid
      (t.get_async_thread_id hh aid).2) jb hw hjb
  have h1 : t.async_begin hh amb aid name category args
      = ({ (t.get_async_thread_id hh aid).1 with
            async_events := insertA (t.get_async_thread_id hh aid).1.async_events aid
              (Tracer.asyncBeginEvent hh amb name category args aid
                (t.get_async_thread_id hh aid).2)
            writer := some { w with firstEvent := false, file := w.file ++ (if w.firstEvent then [FileTok.eventChunk jb] else [FileTok.sep, FileTok.eventChunk jb]) } },
         aid, none) := by
    simp [Tracer.async_begin, Tracer.write_event, hs2, hs3, ht, htw, hw1]
  have hw2 := ChromeTraceWriter.write_event_ok
    { w with firstEvent := false, file := w.file ++ (if w.firstEvent then [FileTok.eventChunk jb] else [FileTok.sep, FileTok.eventChunk jb]) }
    (Tracer.asyncEndEvent hh amb2
      (Tracer.asyncBeginEvent hh amb name category args aid
        (t.get_async_thread_id hh aid).2) args2 aid
      (t.get_async_thread_id hh aid).2) je hw hje
  have h2 : Tracer.async_end hh
      (t.async_begin hh amb aid name category args).1 amb2 aid args2
      = ({ (t.get_async_thread_id hh aid).1 with
            async_events := eraseA
              (insertA (t.get_async_thread_id hh aid).1.async_events aid
                (Tracer.asyncBeginEvent hh amb name category args aid
                  (t.get_async_thread_id hh aid).2)) aid
            async_thread_ids := eraseA
              (t.get_async_thread_id hh aid).1.async_thread_ids aid
            writer := some { w with firstEvent := false, file := (w.file ++ (if w.firstEvent then [FileTok.eventChunk jb] else [FileTok.sep, FileTok.eventChunk jb])) ++ [FileTok.sep, FileTok.eventChunk je] } },
         none) := by
    rw [h1]
    simp [Tracer.async_end, lookupA_insertA_self, hs1, hs2, ht,
      Tracer.write_event, hw2]
  refine ⟨by rw [h1], by rw [h1], by rw [h2], rfl, rfl, rfl, rfl, rfl,
    ⟨jb, je,
      { w with firstEvent := false, file := (w.file ++ (if w.firstEvent then [FileTok.eventChunk jb] else [FileTok.sep, FileTok.eventChunk jb])) ++ [FileTok.sep, FileTok.eventChunk je] },
      hjb, hje, by rw [h2], ?_⟩,
    by rw [h2]; exact lookupA_eraseA_self _ _⟩
  cases hf : w.firstEvent <;> simp [hf, chunksAfter, List.append_assoc]

/-- Witness for C4 at concrete inputs: begin and end events share id and lane,
and the lane cache entry is gone afterwards. -/
theorem async_begin_end_share_id_and_lane_witness :
    (Tracer.async_begin (fun _ => 5)
      { enabled := true,
        writer := some ((ChromeTraceWriter.mk' true).openW),
        active_spans := [], async_events := [], async_thread_ids := [] }
      { nowUs := 3, threadIdent := 2, currentTask := none }
      "op-1" "download" "net" []).2.1 = "op-1" ∧
    (Tracer.asyncEndEvent (fun _ => 5)
      { nowUs := 9, threadIdent := 4, currentTask := none }
      (Tracer.asyncBeginEvent (fun _ => 5)
        { nowUs := 3, threadIdent := 2, currentTask := none }
        "download" "net" [] "op-1"
        (Tracer.get_async_thread_id (fun _ => 5)
          { enabled := true,
            writer := some ((ChromeTraceWriter.mk' true).openW),
            active_spans := [], async_events := [], async_thread_ids := [] }
          "op-1").2) [] "op-1"
      (Tracer.get_async_thread_id (fun _ => 5)
        { enabled := true,
          writer := some ((ChromeTraceWriter.mk' true).openW),
          active_spans := [], async_events := [], async_thread_ids := [] }
        "op-1").2).threadId
      = (Tracer.asyncBeginEvent (fun _ => 5)
        { nowUs := 3, threadIdent := 2, currentTask := none }
        "download" "net" [] "op-1"
        (Tracer.get_async_thread_id (fun _ => 5)
          { enabled := true,
            writer := some ((ChromeTraceWriter.mk' true).openW),
            active_spans := [], async_events := [], async_thread_ids := [] }
          "op-1").2).threadId ∧
    lookupA (Tracer.async_end (fun _ => 5)
      (Tracer.async_begin (fun _ => 5)
        { enabled := true,
          writer := some ((ChromeTraceWriter.mk' true).openW),
          active_spans := [], async_events := [], async_thread_ids := [] }
        { nowUs := 3, threadIdent := 2, currentTask := none }
        "op-1" "download" "net" []).1
      { nowUs := 9, threadIdent := 4, currentTask := none }
      "op-1" []).1.async_thread_ids "op-1" = none := by
  have h := async_begin_end_share_id_and_lane (fun _ => 5)
    { enabled := true,
      writer := some ((ChromeTraceWriter.mk' true).openW),
      active_spans := [], async_events := [], async_thread_ids := [] }
    ((ChromeTraceWriter.mk' true).openW)
    { nowUs := 3, threadIdent := 2, currentTask := none }
    { nowUs := 9, threadIdent := 4, currentTask := none }
    "op-1" "download" "net" [] [] rfl rfl rfl
    (by simp [Tracer.asyncBeginEvent, Tracer.get_async_thread_id, lookupA,
              asyncLane, mkEvent, renderEventJson, TraceEvent.to_dict,
              serialize_args, renderValue, renderEntries,
              Except.isOk, Except.toBool])
    (by simp [Tracer.asyncBeginEvent, Tracer.asyncEndEvent,
              Tracer.get_async_thread_id, lookupA, asyncLane, mkEvent,
              renderEventJson, TraceEvent.to_dict, serialize_args,
              renderValue, renderEntries, Except.isOk, Except.toBool])
  exact ⟨h.1, h.2.2.2.2.2.1, h.2.2.2.2.2.2.2.2.2⟩

/-! ### Claim C10 -/

/-- C10. `begin_span` on a tracer that is disabled or not started (the
hypothesis is exactly that disjunction: `enabled = false` or no writer) still
generates the token, registers the begin event under it (the registry grows by
one for a fresh token) and returns the token, while writing nothing — the
writer state, and hence the sink, is untouched; and when the tracer is
enabled (hence merely not started), a later `end_span` with that token, after
the tracer has been started, pops the registration and emits a duration-end
event even though no begin event was ever emitted: the final file holds
exactly the start-up metadata chunk and that one duration-end chunk. -/
theorem begin_span_unstarted_registers_without_emitting
    (hh hh2 : String → Nat) (t : Tracer) (amb amb2 amb3 : Ambient)
    (tok name category : String) (args args2 : List (String × Value))
    (hcase : t.enabled = false ∨ t.writer = none)
    (hfresh : lookupA t.active_spans tok = none)
    (hm : (renderEventJson (Tracer.startMetadataEvent hh2 amb2)).isOk = true)
    (he : (renderEventJson (Tracer.endSpanEvent hh amb3
      (Tracer.beginSpanEvent hh amb name category args) args2)).isOk = true) :
    (t.begin_span hh amb tok name category args).2.1 = tok ∧
    (t.begin_span hh amb tok name category args).2.2 = none ∧
    (t.begin_span hh amb tok name category args).1.writer = t.writer ∧
    lookupA (t.begin_span hh amb tok name category args).1.active_spans tok
      = some (Tracer.beginSpanEvent hh amb name category args) ∧
    (t.begin_span hh amb tok name category args).1.active_spans.length
      = t.active_spans.length + 1 ∧
    (t.enabled = true →
      (Tracer.start hh2 (t.begin_span hh amb tok name category args).1
        amb2).2 = none ∧
      (Tracer.end_span hh (Tracer.start hh2
        (t.begin_span hh amb tok name category args).1 amb2).1
        amb3 tok args2).2 = none ∧
      lookupA (Tracer.end_span hh (Tracer.start hh2
        (t.begin_span hh amb tok name category args).1 amb2).1
        amb3 tok args2).1.active_spans tok = none ∧
      (∃ jm je,
        renderEventJson (Tracer.startMetadataEvent hh2 amb2) = .ok jm ∧
        renderEventJson (Tracer.endSpanEvent hh amb3
          (Tracer.beginSpanEvent hh amb name category args) args2) = .ok je ∧
        ∃ w2, (Tracer.end_span hh (Tracer.start hh2
            (t.begin_span hh amb tok name category args).1 amb2).1
            amb3 tok args2).1.writer = some w2 ∧
          w2.file = [FileTok.header, FileTok.eventChunk jm, FileTok.sep,
            FileTok.eventChunk je])) := by
  obtain ⟨jm, hjm⟩ : ∃ jm, renderEventJson
      (Tracer.startMetadataEvent hh2 amb2) = .ok jm := by
    cases h : renderEventJson (Tracer.startMetadataEvent hh2 amb2) with
    | ok jm => exact ⟨jm, rfl⟩
    | error e => rw [h] at hm; simp [Except.isOk, Except.toBool] at hm
  obtain ⟨je, hje⟩ : ∃ je, renderEventJson (Tracer.endSpanEvent hh amb3
      (Tracer.beginSpanEvent hh amb name category args) args2) = .ok je := by
    cases h : renderEventJson (Tracer.endSpanEvent hh amb3
        (Tracer.beginSpanEvent hh amb name category args) args2) with
    | ok je => exact ⟨je, rfl⟩
    | error e => rw [h] at he; simp [Except.isOk, Except.toBool] at he
  have h1 : t.begin_span hh amb tok name category args
      = ({ t with
            active_spans := insertA t.active_spans tok
              (Tracer.beginSpanEvent hh amb name category args) },
         tok, none) := by
    rcases hcase with hdis | hwn
    · simp [Tracer.begin_span, Tracer.write_event, hdis]
    · by_cases hen : t.enabled = true <;>
        simp [Tracer.begin_span, Tracer.write_event, hen, hwn]
  refine ⟨by rw [h1], by rw [h1], by rw [h1], ?_, ?_, ?_⟩
  · rw [h1]
    exact lookupA_insertA_self _ _ _
  · rw [h1]
    exact length_insertA_fresh _ _ _ hfresh
  intro ht
  have htw : t.writer = none := by
    rcases hcase with hdis | hwn
    · rw [ht] at hdis; cases hdis
    · exact hwn
  have hwm := ChromeTraceWriter.write_event_ok
    { autoFlush := true, isOpen := true, firstEvent := true,
      file := [FileTok.header] }
    (Tracer.startMetadataEvent hh2 amb2) jm rfl hjm
  have h2 : Tracer.start hh2
      (t.begin_span hh amb tok name category args).1 amb2
      = ({ t with
            active_spans := insertA t.active_spans tok
              (Tracer.beginSpanEvent hh amb name category args)
            writer := some { autoFlush := true, isOpen := true, firstEvent := false, file := [FileTok.header, FileTok.eventChunk jm] } },
         none) := by
    rw [h1]
    simp only [Tracer.start]
    simp [ht, htw, hwm, ChromeTraceWriter.mk', ChromeTraceWriter.openW]
  have hwe := ChromeTraceWriter.write_event_ok
    { autoFlush := true, isOpen := true, firstEvent := false,
      file := [FileTok.header, FileTok.eventChunk jm] }
    (Tracer.endSpanEvent hh amb3
      (Tracer.beginSpanEvent hh amb name category args) args2) je rfl hje
  have h3 : Tracer.end_span hh (Tracer.start hh2
      (t.begin_span hh amb tok name category args).1 amb2).1
      amb3 tok args2
      = ({ t with
            active_spans := eraseA (insertA t.active_spans tok
              (Tracer.beginSpanEvent hh amb name category args)) tok
            writer := some { autoFlush := true, isOpen := true, firstEvent := false, file := [FileTok.header, FileTok.eventChunk jm, FileTok.sep, FileTok.eventChunk je] } },
         none) := by
    rw [h2]
    simp [Tracer.end_span, lookupA_insertA_self, ht, Tracer.write_event, hwe]
  exact ⟨by rw [h2], by rw [h3],
    by rw [h3]; exact lookupA_eraseA_self _ _,
    ⟨jm, je, hjm, hje,
      { autoFlush := true, isOpen := true, firstEvent := false,
        file := [FileTok.header, FileTok.eventChunk jm, FileTok.sep,
          FileTok.eventChunk je] },
      by rw [h3], rfl⟩⟩

/-- Witness for C10 at concrete inputs, one per disjunct of the hypothesis: on
a disabled tracer, `begin_span` leaves the writer untouched while the registry
grows; on an enabled but not-started tracer, the begin, the start, and the end
together leave no registration and a file holding exactly the metadata chunk
and one duration-end chunk. -/
theorem begin_span_unstarted_registers_without_emitting_witness :
    ((Tracer.begin_span (fun _ => 0)
      { enabled := false, writer := none, active_spans := [],
        async_events := [], async_thread_ids := [] }
      { nowUs := 1, threadIdent := 2, currentTask := none }
      "tok-8" "early" "cat" []).1.writer = none ∧
    (Tracer.begin_span (fun _ => 0)
      { enabled := false, writer := none, active_spans := [],
        async_events := [], async_thread_ids := [] }
      { nowUs := 1, threadIdent := 2, currentTask := none }
      "tok-8" "early" "cat" []).1.active_spans.length = 0 + 1) ∧
    (Tracer.begin_span (fun _ => 0)
      { enabled := true, writer := none, active_spans := [],
        async_events := [], async_thread_ids := [] }
      { nowUs := 1, threadIdent := 2, currentTask := none }
      "tok-9" "late" "cat" []).1.writer = none ∧
    (Tracer.begin_span (fun _ => 0)
      { enabled := true, writer := none, active_spans := [],
        async_events := [], async_thread_ids := [] }
      { nowUs := 1, threadIdent := 2, currentTask := none }
      "tok-9" "late" "cat" []).1.active_spans.length = 0 + 1 ∧
    lookupA (Tracer.end_span (fun _ => 0) (Tracer.start (fun _ => 0)
      (Tracer.begin_span (fun _ => 0)
        { enabled := true, writer := none, active_spans := [],
          async_events := [], async_thread_ids := [] }
        { nowUs := 1, threadIdent := 2, currentTask := none }
        "tok-9" "late" "cat" []).1
      { nowUs := 4, threadIdent := 2, currentTask := none }).1
      { nowUs := 6, threadIdent := 3, currentTask := none }
      "tok-9" []).1.active_spans "tok-9" = none := by
  have hd := begin_span_unstarted_registers_without_emitting
    (fun _ => 0) (fun _ => 0)
    { enabled := false, writer := none, active_spans := [],
      async_events := [], async_thread_ids := [] }
    { nowUs := 1, threadIdent := 2, currentTask := none }
    { nowUs := 4, threadIdent := 2, currentTask := none }
    { nowUs := 6, threadIdent := 3, currentTask := none }
    "tok-8" "early" "cat" [] [] (Or.inl rfl) rfl
    (by simp [Tracer.startMetadataEvent, mkEvent, renderEventJson,
              TraceEvent.to_dict, serialize_args, renderValue, renderEntries,
              Except.isOk, Except.toBool])
    (by simp [Tracer.beginSpanEvent, Tracer.endSpanEvent, mkEvent,
              renderEventJson, TraceEvent.to_dict, serialize_args, renderValue,
              renderEntries, Except.isOk, Except.toBool])
  have h := begin_span_unstarted_registers_without_emitting
    (fun _ => 0) (fun _ => 0)
    { enabled := true, writer := none, active_spans := [],
      async_events := [], async_thread_ids := [] }
    { nowUs := 1, threadIdent := 2, currentTask := none }
    { nowUs := 4, threadIdent := 2, currentTask := none }
    { nowUs := 6, threadIdent := 3, currentTask := none }
    "tok-9" "late" "cat" [] [] (Or.inr rfl) rfl
    (by simp [Tracer.startMetadataEvent, mkEvent, renderEventJson,
              TraceEvent.to_dict, serialize_args, renderValue, renderEntries,
              Except.isOk, Except.toBool])
    (by simp [Tracer.beginSpanEvent, Tracer.endSpanEvent, mkEvent,
              renderEventJson, TraceEvent.to_dict, serialize_args, renderValue,
              renderEntries, Except.isOk, Except.toBool])
  exact ⟨⟨hd.2.2.1, hd.2.2.2.2.1⟩,
    h.2.2.1, h.2.2.2.2.1, (h.2.2.2.2.2 rfl).2.2.1⟩

end HabitatTrace
